import Mathlib

/-!
Verification development for the bundle-dashboard server (`src/server.js`).

The file shallowly embeds the parts of the server that the specification
talks about: the rate-limited/retrying outbound-call wrappers, the
create/update/delete/sync bundle pipelines, the batched mutation
orchestrator of `/create-bundles`, and the paginated sales-aggregation
pass.  Machine arithmetic on prices is idealised over `ℚ` (JS numbers and
`toFixed(2)` become exact rationals and explicit 2-decimal rounding);
inventory quantities are `ℤ` with `Math.floor` made explicit.
-/

/-! ## Outbound call sites and transports (server.js, whole file)

Every place in `server.js` that issues an HTTP request to the platform is
enumerated below, together with the transport it actually uses:

* the module-level helpers `shopifyApiCall` (lines 52-79) and
  `shopifyGraphQLCall` (lines 82-123) go through the Bottleneck limiter
  (`minTime: 500`, `maxConcurrent: 1`, lines 35-38) and retry up to 3
  attempts;
* the `/create-bundles` handler defines route-local `shopifyGraphQLCall`
  (lines 638-655) and `shopifyApiCall` (lines 659-673) that call `axios`
  directly, and every call inside that handler (including
  `removeDefaultVariant` and `processProduct`) resolves to these locals;
* the `/update-bundles` handler likewise defines a route-local
  `shopifyGraphQLCall` (lines 912-929) calling `axios.post` directly.
-/

/-- Transport a call site resolves to: one of the two module-level
resilient wrappers, or a direct (route-local) axios call. -/
inductive Transport where
  | resilientRest
  | resilientGraphQL
  | rawAxios
deriving DecidableEq, Repr

/-- Route (or shared read pipeline) a call site belongs to. -/
inductive Route where
  | reportRead
  | trackVisit
  | createBundles
  | updateBundles
  | syncInventory
  | deleteBundles
deriving DecidableEq, Repr

/-- Every outbound call site in `server.js`. -/
inductive OutboundCallSite where
  | fetchProductsPage
  | fetchSalesPage
  | fetchBundleMappingsPage
  | visitorsFetch
  | visitorsUpdate
  | createProductFetch
  | createMetafieldSet
  | createVariantDelete
  | createOptionsUpdate
  | createRefetch
  | createBulkCreate
  | createRemoveDefaultFetch
  | createRemoveDefaultDelete
  | createImageLink
  | updateProductFetch
  | updateBulkUpdate
  | syncProductFetch
  | syncInventorySet
  | deleteProductFetch
  | deleteVariantDelete
  | deleteOptionsReset
deriving DecidableEq, Repr

/-- Which handler each call site lives in. -/
def routeOf : OutboundCallSite → Route
  | .fetchProductsPage => .reportRead
  | .fetchSalesPage => .reportRead
  | .fetchBundleMappingsPage => .reportRead
  | .visitorsFetch => .trackVisit
  | .visitorsUpdate => .trackVisit
  | .createProductFetch => .createBundles
  | .createMetafieldSet => .createBundles
  | .createVariantDelete => .createBundles
  | .createOptionsUpdate => .createBundles
  | .createRefetch => .createBundles
  | .createBulkCreate => .createBundles
  | .createRemoveDefaultFetch => .createBundles
  | .createRemoveDefaultDelete => .createBundles
  | .createImageLink => .createBundles
  | .updateProductFetch => .updateBundles
  | .updateBulkUpdate => .updateBundles
  | .syncProductFetch => .syncInventory
  | .syncInventorySet => .syncInventory
  | .deleteProductFetch => .deleteBundles
  | .deleteVariantDelete => .deleteBundles
  | .deleteOptionsReset => .deleteBundles

/-- Transport each call site resolves to in the source (JS lexical
scoping: inside `/create-bundles` and `/update-bundles` the route-local
helper definitions shadow the module-level wrappers). -/
def transportOf : OutboundCallSite → Transport
  | .fetchProductsPage => .resilientGraphQL
  | .fetchSalesPage => .resilientGraphQL
  | .fetchBundleMappingsPage => .resilientGraphQL
  | .visitorsFetch => .resilientGraphQL
  | .visitorsUpdate => .resilientGraphQL
  | .createProductFetch => .rawAxios
  | .createMetafieldSet => .rawAxios
  | .createVariantDelete => .rawAxios
  | .createOptionsUpdate => .rawAxios
  | .createRefetch => .rawAxios
  | .createBulkCreate => .rawAxios
  | .createRemoveDefaultFetch => .rawAxios
  | .createRemoveDefaultDelete => .rawAxios
  | .createImageLink => .rawAxios
  | .updateProductFetch => .rawAxios
  | .updateBulkUpdate => .rawAxios
  | .syncProductFetch => .resilientGraphQL
  | .syncInventorySet => .resilientGraphQL
  | .deleteProductFetch => .resilientGraphQL
  | .deleteVariantDelete => .resilientRest
  | .deleteOptionsReset => .resilientRest

/-- Policy a transport applies: whether it is gated by the Bottleneck
limiter, the limiter parameters it is gated by, and the maximum number of
attempts per logical call.  Raw axios calls are neither limited nor
retried (one attempt); the 0 fields denote the absence of a limiter. -/
structure TransportPolicy where
  rateLimited : Bool
  minTimeMs : ℕ
  maxConcurrent : ℕ
  maxAttempts : ℕ
deriving DecidableEq, Repr

/-- Limiter/retry parameters of each transport, from `server.js`
lines 35-44 (Bottleneck config) and lines 53/86 (`maxRetries = 3`). -/
def policyOf : Transport → TransportPolicy
  | .resilientRest => ⟨true, 500, 1, 3⟩
  | .resilientGraphQL => ⟨true, 500, 1, 3⟩
  | .rawAxios => ⟨false, 0, 0, 1⟩

/-! ## Resilient call wrappers (server.js lines 52-123)

The wrappers are modelled as functions of an attempt oracle
`exec : ℕ → outcome` giving the outcome of the i-th underlying HTTP
attempt.  They return the final result together with the number of
attempts actually executed.
-/

/-- Outcome of one REST attempt as classified by `shopifyApiCall`:
a successful axios response, an HTTP 429, or any other axios error. -/
inductive RestOutcome where
  | ok (body : String)
  | rateLimited
  | otherError (msg : String)
deriving DecidableEq, Repr

/-- Result of a wrapped call: the resolved value or the thrown error
message. -/
inductive CallResult where
  | success (body : String)
  | failure (msg : String)
deriving DecidableEq, Repr

/-- The `while (attempt < maxRetries)` loop of `shopifyApiCall`
(lines 56-77), with `remaining = maxRetries - attempt` as fuel.  On 429
the loop sleeps and retries; any other error is rethrown at once; an
exhausted budget throws the distinct max-retries error (line 78). -/
def shopifyApiCallAux (exec : ℕ → RestOutcome) (url : String) :
    ℕ → ℕ → CallResult × ℕ
  | 0, attempt => (.failure ("Max retries (3) exceeded for " ++ url), attempt)
  | remaining + 1, attempt =>
    match exec attempt with
    | .ok body => (.success body, attempt + 1)
    | .rateLimited => shopifyApiCallAux exec url remaining (attempt + 1)
    | .otherError msg => (.failure ("API call failed: " ++ msg), attempt + 1)

/-- `shopifyApiCall` (server.js lines 52-79): 3 attempts maximum. -/
def shopifyApiCall (exec : ℕ → RestOutcome) (url : String) : CallResult × ℕ :=
  shopifyApiCallAux exec url 3 0

/-- Outcome of one GraphQL POST attempt as classified by
`shopifyGraphQLCall` (lines 89-121): HTTP 429, other HTTP error, a body
that is not an object, a `THROTTLED` error entry, other GraphQL errors,
a body without `data`, or success. -/
inductive GraphQLOutcome where
  | http429
  | httpError (msg : String)
  | invalidBody (raw : String)
  | throttled
  | graphErrors (msg : String)
  | missingData (raw : String)
  | ok (data : String)
deriving DecidableEq, Repr

/-- The retry loop of `shopifyGraphQLCall` (lines 89-121).  429 and
THROTTLED retry; the `Invalid GraphQL response`, `GraphQL errors` and
`missing data` throws happen inside the `try` block and are re-wrapped by
the `catch` (which sees no `err.response`) as `GraphQL call failed: ...`;
the exhausted budget throws the max-retries error (line 122).  The
quotes around the word data in the source message are elided here. -/
def shopifyGraphQLCallAux (exec : ℕ → GraphQLOutcome) :
    ℕ → ℕ → CallResult × ℕ
  | 0, attempt => (.failure "Max retries (3) exceeded for GraphQL", attempt)
  | remaining + 1, attempt =>
    match exec attempt with
    | .ok d => (.success d, attempt + 1)
    | .http429 => shopifyGraphQLCallAux exec remaining (attempt + 1)
    | .throttled => shopifyGraphQLCallAux exec remaining (attempt + 1)
    | .invalidBody raw =>
      (.failure ("GraphQL call failed: Invalid GraphQL response: " ++ raw), attempt + 1)
    | .graphErrors msg =>
      (.failure ("GraphQL call failed: GraphQL errors: " ++ msg), attempt + 1)
    | .missingData raw =>
      (.failure ("GraphQL call failed: GraphQL response missing data field: " ++ raw),
        attempt + 1)
    | .httpError msg => (.failure ("GraphQL call failed: " ++ msg), attempt + 1)

/-- `shopifyGraphQLCall` (server.js lines 82-123): 3 attempts maximum. -/
def shopifyGraphQLCall (exec : ℕ → GraphQLOutcome) : CallResult × ℕ :=
  shopifyGraphQLCallAux exec 3 0

/-- A GraphQL outcome is retriable iff it is an HTTP 429 or a THROTTLED
GraphQL error. -/
def GraphQLOutcome.retriable : GraphQLOutcome → Bool
  | .http429 => true
  | .throttled => true
  | _ => false

/-! ## Tier pricing and inventory (server.js lines 810-821, 989-1002, 1120-1136)

Prices are idealised as exact rationals; `Number.prototype.toFixed(2)`
becomes rounding to 2 decimal places with ties going up, and
`Math.floor(a / b)` becomes the floor of the exact rational quotient.
-/

/-- `x.toFixed(2)` on a (nonnegative) price: round to 2 decimal places,
ties up. -/
def round2 (q : ℚ) : ℚ := (⌊q * 100 + 1 / 2⌋ : ℚ) / 100

/-- One entry of the `bundles` array built by `processProduct`
(lines 810-814): tier quantity, raw price expression, floored
inventory. -/
structure BundleSpec where
  qty : ℕ
  price : ℚ
  inventory : ℤ
deriving DecidableEq, Repr

/-- The `bundles` array of `processProduct` (server.js lines 810-814):
1x keeps the base price, 2x and 3x apply the respective discount, and
each tier's inventory is `Math.floor(baseInventory / qty)`. -/
def createBundleSpecs (basePrice discount2 discount3 : ℚ) (baseInventory : ℤ) :
    List BundleSpec :=
  [ ⟨1, basePrice, ⌊(baseInventory : ℚ) / 1⌋⟩,
    ⟨2, basePrice * 2 * (1 - discount2 / 100), ⌊(baseInventory : ℚ) / 2⌋⟩,
    ⟨3, basePrice * 3 * (1 - discount3 / 100), ⌊(baseInventory : ℚ) / 3⌋⟩ ]

/-- One element of `variantsToCreate` (server.js lines 816-821). -/
structure VariantInput where
  optionName : String
  price : ℚ
  sku : String
  availableQuantity : ℤ
deriving DecidableEq, Repr

/-- `variantsToCreate` (server.js lines 816-821): option value
`${qty}x`, price `b.price.toFixed(2)`, sku
`${product_id}-${qty}x-BUNDLE`, inventory at the base location. -/
def variantsToCreate (pid : String) (basePrice discount2 discount3 : ℚ)
    (baseInventory : ℤ) : List VariantInput :=
  (createBundleSpecs basePrice discount2 discount3 baseInventory).map fun b =>
    ⟨toString b.qty ++ "x", round2 b.price,
      pid ++ "-" ++ toString b.qty ++ "x-BUNDLE", b.inventory⟩

/-- 2x price written by `/update-bundles` (server.js line 994). -/
def updatePrice2 (basePrice discount2 : ℚ) : ℚ :=
  round2 (basePrice * 2 * (1 - discount2 / 100))

/-- 3x price written by `/update-bundles` (server.js line 1000). -/
def updatePrice3 (basePrice discount3 : ℚ) : ℚ :=
  round2 (basePrice * 3 * (1 - discount3 / 100))

/-- `newInventory` computed by `/sync-bundle-inventory`
(server.js line 1124): `Math.floor(baseInventory / qty)`. -/
def syncNewInventory (baseInventory : ℤ) (qty : ℕ) : ℤ :=
  ⌊(baseInventory : ℚ) / (qty : ℚ)⌋

/-- Quantity pushed by `/sync-bundle-inventory` (server.js line 1134):
`newInventory >= 0 ? newInventory : 0`. -/
def syncPushedQuantity (baseInventory : ℤ) (qty : ℕ) : ℤ :=
  if 0 ≤ syncNewInventory baseInventory qty then syncNewInventory baseInventory qty else 0

/-! ## Paginated sales aggregation (server.js lines 194-218, 370-423)

An order page is one response to the sales query; the crawl processes
pages in order while the previous page reported `hasNextPage` and fewer
than `MAX_PAGES` pages have been fetched.  The sales maps are modelled
as total functions with default 0 (the code reads them with
`map.get(k) || 0`).
-/

/-- A line item of an order: variant id (nullable), sku (nullable; the
empty string stands for itself and is falsy in JS), quantity. -/
structure LineItem where
  variantId : Option String
  sku : Option String
  quantity : ℕ
deriving DecidableEq, Repr

/-- An order: its (first 250) line items. -/
structure Order where
  lineItems : List LineItem
deriving DecidableEq, Repr

/-- One page of the orders query: the (first 250) orders plus the
`pageInfo.hasNextPage` flag. -/
structure OrdersPage where
  orders : List Order
  hasNextPage : Bool
deriving DecidableEq, Repr

/-- `MAX_PAGES` (server.js line 383). -/
def MAX_PAGES : ℕ := 10

/-- The pages actually fetched by the `while (hasNextPage && pageCount <
MAX_PAGES)` loop (server.js lines 387-414), given the page sequence the
platform would serve. -/
def takeScanned : ℕ → List OrdersPage → List OrdersPage
  | 0, _ => []
  | _ + 1, [] => []
  | n + 1, p :: rest => p :: (if p.hasNextPage then takeScanned n rest else [])

/-- All line items of one page, in order. -/
def pageLineItems (p : OrdersPage) : List LineItem :=
  (p.orders.map Order.lineItems).flatten

/-- All line items seen by the crawl, in scan order. -/
def scannedLineItems (pages : List OrdersPage) : List LineItem :=
  ((takeScanned MAX_PAGES pages).map pageLineItems).flatten

/-- One step of the sku aggregation (server.js lines 395-405): if the
line item's sku is truthy and is a bundle sku, add its quantity to that
sku's running total. -/
def accumSkuSales (bundleSkus : List String) (m : String → ℕ) (li : LineItem) :
    String → ℕ :=
  match li.sku with
  | none => m
  | some s =>
    if s ≠ "" ∧ s ∈ bundleSkus then Function.update m s (m s + li.quantity) else m

/-- The `skuSalesMap` after the crawl (server.js lines 374-414). -/
def skuSalesOf (bundleSkus : List String) (pages : List OrdersPage) : String → ℕ :=
  (scannedLineItems pages).foldl (accumSkuSales bundleSkus) (fun _ => 0)

/-- `fetchAndAggregateSales` (server.js lines 370-423): empty input
short-circuits to an empty map; otherwise aggregate quantities by stable
sku over the scanned pages, then fold each sku's total back onto the
current variant gid via `skuToGidMap`. -/
def fetchAndAggregateSales (variantGids : List String)
    (skuToGid : List (String × String)) (pages : List OrdersPage) : String → ℕ :=
  if variantGids.isEmpty then fun _ => 0
  else
    let skuSales := skuSalesOf (skuToGid.map Prod.fst) pages
    skuToGid.foldl (fun acc e => Function.update acc e.2 (skuSales e.1)) (fun _ => 0)

/-- The variant-key list attached to each issued sales query.  The loop
(server.js line 389) builds every query as
`BUNDLE_VARIANT_SALES_QUERY([])`, and the query text (lines 194-218)
contains no variant-id filter at all, so every issued query carries an
empty key list; one query is issued per scanned page. -/
def salesQueryKeyLists (variantGids : List String) (pages : List OrdersPage) :
    List (List String) :=
  if variantGids.isEmpty then []
  else (takeScanned MAX_PAGES pages).map (fun _ => ([] : List String))

/-- Whether a page sequence is a well-formed platform response: nonempty,
`hasNextPage` on every page but the last, and not on the last. -/
def wellFormedPages : List OrdersPage → Bool
  | [] => false
  | [p] => !p.hasNextPage
  | p :: q :: rest => p.hasNextPage && wellFormedPages (q :: rest)

/-! ## Report finalization (server.js lines 309-347)

`fetchProductsAndBundles` builds one record per bundle-tier variant,
looks its sales total up by gid, and then deletes the internal-only
`variantGid` and `sku` fields before the report is returned.
-/

/-- A bundle-tier record as built at server.js lines 309-317; the two
internal fields are `Option`s so that their later deletion (lines
340-341) is representable. -/
structure BundleRec where
  type : String
  variantId : String
  variantGid : Option String
  sku : Option String
  price : ℚ
  available : ℤ
  totalOrders : ℕ
deriving DecidableEq, Repr

/-- A bundle product of the report (server.js lines 321-327, 344-346). -/
structure BundleProduct where
  id : String
  title : String
  bundles : List BundleRec
  visitors : ℕ
  totalSold : ℕ
  conversionRate : ℚ
deriving DecidableEq, Repr

/-- Per-bundle finalization (server.js lines 337-342): set `totalOrders`
from the sales map (`salesMap.get(gid) || 0`; an absent gid reads 0) and
delete the internal `variantGid` and `sku` fields. -/
def finalizeBundle (salesMap : String → ℕ) (b : BundleRec) : BundleRec :=
  { b with
    totalOrders := match b.variantGid with | some gid => salesMap gid | none => 0
    variantGid := none
    sku := none }

/-- Per-product finalization (server.js lines 335-347): finalize every
bundle, accumulate `totalSold`, and compute the conversion rate
(`totalSold / visitors * 100`, 0 when there are no visitors). -/
def finalizeProduct (salesMap : String → ℕ) (p : BundleProduct) : BundleProduct :=
  let newBundles := p.bundles.map (finalizeBundle salesMap)
  let totalSold := (newBundles.map BundleRec.totalOrders).sum
  { p with
    bundles := newBundles
    totalSold := totalSold
    conversionRate :=
      if 0 < p.visitors then (totalSold : ℚ) / (p.visitors : ℚ) * 100 else 0 }

/-! ## The `/create-bundles` per-product pipeline (server.js lines 611-893)

`processProduct` is modelled as a function of the product snapshot the
first GraphQL fetch returns and of an oracle for the post-mutation reads
(the refetched Bundle option and the bulk-create `userErrors`).  It
returns the settled outcome of the product's promise — `ok (product_id,
success message)` or `error message` as thrown at line 862 — together
with the trace of platform write operations it performed, in order.
Post-create cleanup (default-variant removal, image relinking) has its
failures swallowed by the source and is elided from the trace.
-/

/-- The inventory level attached to a variant
(`inventoryLevels.edges[0]?.node`): the `available` quantity entry (if
present) and the location id (if present). -/
structure InventoryInfo where
  available : Option ℤ
  locationId : Option String
deriving DecidableEq, Repr

/-- A variant as fetched by the create pipeline's product query. -/
structure CVariant where
  id : String
  selectedOptions : List (String × String)
  price : ℚ
  invLevel : Option InventoryInfo
deriving DecidableEq, Repr

/-- A product as fetched by the create pipeline's product query. -/
structure CProduct where
  id : String
  variants : List CVariant
deriving DecidableEq, Repr

/-- Oracle for the platform reads the pipeline performs after mutating:
the Bundle option id found on refetch (none models `Bundle option not
found after update.`) and the `userErrors` of the bulk-create
mutation. -/
structure CreateOrch where
  bundleOptionId : Option String
  createUserErrors : List String
deriving DecidableEq, Repr

/-- The tier option values. -/
def tierValues : List String := ["1x", "2x", "3x"]

/-- The value of a variant's `Bundle` selected option, if any. -/
def bundleOptValue (v : CVariant) : Option String :=
  (v.selectedOptions.find? (fun o => o.1 = "Bundle")).map Prod.snd

/-- Whether a variant is a bundle-tier variant (its Bundle option value
is one of 1x/2x/3x). -/
def isBundleTier (v : CVariant) : Bool :=
  match bundleOptValue v with
  | some x => tierValues.contains x
  | none => false

/-- Base-variant selection (server.js lines 777-781): the first variant
that is not a bundle tier, else the first variant. -/
def baseVariantOf (variants : List CVariant) : Option CVariant :=
  (variants.find? (fun v => !(isBundleTier v))) <|> variants.head?

/-- `baseInventory` of a variant (server.js lines 784-786): the
`available` quantity of the first inventory level, `|| 0` when the level
or the quantity entry is absent. -/
def baseAvailableOf (v : CVariant) : ℤ :=
  match v.invLevel with
  | some lvl => lvl.available.getD 0
  | none => 0

/-- `locationId` of a variant (server.js line 787):
`baseInventoryLevel?.location?.id`. -/
def baseLocationOf (v : CVariant) : Option String :=
  v.invLevel.bind InventoryInfo.locationId

/-- A platform write operation performed by the create pipeline. -/
inductive PlatformAction where
  | setMetafield (pid : String)
  | deleteVariant (vid : String)
  | updateOptions (pid : String)
  | createVariants (pid : String) (inputs : List VariantInput)
deriving DecidableEq, Repr

/-- The error-message wrapper of `processProduct`'s catch block
(server.js line 862). -/
def wrapErr (pid msg : String) : String :=
  "Error processing product " ++ pid ++ ": " ++ msg

/-- Mutation phase of `processProduct` (server.js lines 792-858),
entered once the guards passed: delete every fetched variant, set the
Bundle option axis, refetch (oracle), bulk-create the tier variants,
check `userErrors`. -/
def processProductMutate (pid : String) (discount2 discount3 : ℚ)
    (product : CProduct) (orch : CreateOrch) (basePrice : ℚ) (baseInventory : ℤ)
    (mfTrace : List PlatformAction) :
    Except String (String × String) × List PlatformAction :=
  let trace1 := mfTrace ++ product.variants.map (fun v => PlatformAction.deleteVariant v.id)
    ++ [PlatformAction.updateOptions pid]
  match orch.bundleOptionId with
  | none => (.error (wrapErr pid "Bundle option not found after update."), trace1)
  | some _ =>
    let inputs := variantsToCreate pid basePrice discount2 discount3 baseInventory
    let trace2 := trace1 ++ [PlatformAction.createVariants pid inputs]
    if orch.createUserErrors.isEmpty then
      (.ok (pid, "✅ Bundles created successfully for product " ++ pid), trace2)
    else
      (.error (wrapErr pid (String.intercalate ", " orch.createUserErrors)), trace2)

/-- Pre-mutation phase of `processProduct` (server.js lines 712-790):
optional metafield write (its own failure is swallowed), the `No
variants found.` / `No inventory location found.` / `No inventory
available.` guards, then the mutation phase. -/
def processProductBody (pid : String) (bundleText : String)
    (discount2 discount3 : ℚ) (product : CProduct) (orch : CreateOrch) :
    Except String (String × String) × List PlatformAction :=
  let mfTrace : List PlatformAction :=
    if bundleText ≠ "" then [PlatformAction.setMetafield pid] else []
  if product.variants.isEmpty then (.error (wrapErr pid "No variants found."), mfTrace)
  else
    match baseVariantOf product.variants with
    | none => (.error (wrapErr pid "No variants found."), mfTrace)
    | some base =>
      if (baseLocationOf base).isNone then
        (.error (wrapErr pid "No inventory location found."), mfTrace)
      else if baseAvailableOf base ≤ 0 then
        (.error (wrapErr pid "No inventory available."), mfTrace)
      else
        processProductMutate pid discount2 discount3 product orch base.price
          (baseAvailableOf base) mfTrace

/-- `processProduct` (server.js lines 712-864): a missing product throws
`Product not found`; otherwise run the body on the fetched snapshot. -/
def processProduct (pid : String) (bundleText : String)
    (discount2 discount3 : ℚ) (product? : Option CProduct) (orch : CreateOrch) :
    Except String (String × String) × List PlatformAction :=
  match product? with
  | none => (.error (wrapErr pid ("Product not found (" ++ pid ++ ")")), [])
  | some product => processProductBody pid bundleText discount2 discount3 product orch

/-! ## Batching and result aggregation of `/create-bundles`
(server.js lines 866-892)

`Promise.allSettled` preserves input order, chunks are processed
sequentially, and the settled results are concatenated and mapped into
per-product report entries.  The rejected-branch parsing
(`errorMessage.match(/Error processing product (\d+):/)` and
`errorMessage.replace(/Error processing product \d+: /, "")`) is
modelled character-exactly below.
-/

/-- `CONCURRENCY_CHUNK_SIZE` (server.js line 613). -/
def CONCURRENCY_CHUNK_SIZE : ℕ := 15

/-- `chunkArray` (server.js lines 706-710) for chunk size `n + 1`. -/
def chunkArrayPos : List α → ℕ → List (List α)
  | [], _ => []
  | x :: xs, n => (x :: xs.take n) :: chunkArrayPos (xs.drop n) n
termination_by l _ => l.length
decreasing_by simp [List.length_drop]; omega

/-- `chunkArray` (server.js lines 706-710).  A zero size would loop
forever in the source; the route only uses size 15, and size 0 is mapped
to no chunks here. -/
def chunkArray (l : List α) (size : ℕ) : List (List α) :=
  match size with
  | 0 => []
  | n + 1 => chunkArrayPos l n

/-- The literal text of the result-aggregation regexes
(server.js lines 883-885). -/
def literalPid : List Char := "Error processing product ".data

/-- Strip a concrete pattern from the front of a character list. -/
def stripPrefixChars : List Char → List Char → Option (List Char)
  | [], s => some s
  | _ :: _, [] => none
  | c :: cs, d :: ds => if c = d then stripPrefixChars cs ds else none

/-- Maximal leading digit run of a character list, with the rest. -/
def takeDigits : List Char → List Char × List Char
  | [] => ([], [])
  | c :: cs =>
    if c.isDigit then
      let p := takeDigits cs
      (c :: p.1, p.2)
    else ([], c :: cs)

/-- Match of `/Error processing product (\d+):/` anchored at the start
of the list: the literal, then at least one digit, then a colon;
the captured digits are returned.  (The regex's greedy `\d+` with the
mandatory `:` after it is equivalent to maximal munch.) -/
def matchPidAt (s : List Char) : Option (List Char) :=
  match stripPrefixChars literalPid s with
  | none => none
  | some rest =>
    let p := takeDigits rest
    if p.1 = [] then none
    else
      match p.2 with
      | ':' :: _ => some p.1
      | _ => none

/-- Leftmost match of `/Error processing product (\d+):/` in a string
(`String.prototype.match` semantics), returning the captured digits. -/
def findPid : List Char → Option (List Char)
  | [] => none
  | c :: cs => (matchPidAt (c :: cs)) <|> findPid cs

/-- Match of `/Error processing product \d+: /` (note the trailing
space) anchored at the start of the list, returning what follows the
matched text. -/
def matchWrapAt (s : List Char) : Option (List Char) :=
  match stripPrefixChars literalPid s with
  | none => none
  | some rest =>
    let p := takeDigits rest
    if p.1 = [] then none
    else
      match p.2 with
      | ':' :: ' ' :: tail => some tail
      | _ => none

/-- `String.prototype.replace` with the pattern
`/Error processing product \d+: /` and an empty replacement: remove the
leftmost occurrence, if any. -/
def removeWrapAux : List Char → List Char
  | [] => []
  | c :: cs =>
    match matchWrapAt (c :: cs) with
    | some tail => tail
    | none => c :: removeWrapAux cs

/-- One entry of the aggregated `results` array
(server.js lines 880-887). -/
inductive ResultEntry where
  | success (product_id : String) (msg : String)
  | failure (product_id : String) (error : String)
deriving DecidableEq, Repr

/-- Mapping of one settled promise into a result entry (server.js lines
880-887): a fulfilled value is kept; a rejection message (defaulted when
empty, like `reason.message || "Unknown error occurred"`) has the
product id extracted by regex (else `"Unknown ID"`) and the wrapper text
removed to recover the error detail. -/
def settleOne : Except String (String × String) → ResultEntry
  | .ok (pid, msg) => .success pid msg
  | .error emsg =>
    let m := if emsg = "" then "Unknown error occurred" else emsg
    let pid := match findPid m.data with
      | some ds => String.mk ds
      | none => "Unknown ID"
    .failure pid (String.mk (removeWrapAux m.data))

/-- The chunked batch of `/create-bundles` (server.js lines 866-887):
chunk the product ids (size 15), settle every product of a chunk
concurrently (order-preserving), concatenate the chunks' settled
results, and map them into report entries. -/
def runBatch (pids : List String) (run : String → Except String (String × String)) :
    List ResultEntry :=
  let chunks := chunkArray pids CONCURRENCY_CHUNK_SIZE
  ((chunks.map (fun c => c.map run)).flatten).map settleOne

/-! ## The `/delete-bundles` route (server.js lines 1177-1261) -/

/-- A product option axis. -/
structure DOptionAxis where
  name : String
  values : List String
deriving DecidableEq, Repr

/-- A variant as fetched by the delete route's query (id and selected
options only). -/
structure DVariant where
  id : String
  selectedOptions : List (String × String)
deriving DecidableEq, Repr

/-- The delete route's bundle-variant test (server.js lines 1213-1216):
the variant has a `Bundle` selected option whose value is 1x/2x/3x. -/
def dIsBundleTier (v : DVariant) : Bool :=
  match (v.selectedOptions.find? (fun o => o.1 = "Bundle")).map Prod.snd with
  | some x => tierValues.contains x
  | none => false

/-- A metafield attached to a product. -/
structure Metafield where
  space : String
  key : String
  value : String
deriving DecidableEq, Repr

/-- The platform-side state of a product that the delete route can
touch. -/
structure DeleteProductState where
  variants : List DVariant
  options : List DOptionAxis
  metafields : List Metafield
deriving DecidableEq, Repr

/-- `/delete-bundles` (server.js lines 1177-1261) on the success path:
no fetched variants is an error; otherwise every bundle-tier variant is
deleted by REST and the product's options are reset to a single `Title`
axis.  Nothing in the route reads or writes metafields, so the
product's metafields pass through unchanged. -/
def deleteBundlesRoute (p : DeleteProductState) : Except String DeleteProductState :=
  if p.variants.isEmpty then
    .error "GraphQL returned no variants for this product ID."
  else
    .ok { variants := p.variants.filter (fun v => !(dIsBundleTier v))
          options := [⟨"Title", []⟩]
          metafields := p.metafields }

/-- Concrete per-product platform environment used for the batching
witness: product 2's snapshot lacks an inventory location; every other
product has stock 10 at location L and a clean post-mutation oracle. -/
def c5env : String → Option CProduct × CreateOrch := fun pid =>
  if pid = "2" then
    (some ⟨"g2", [⟨"vB", [], 10, none⟩]⟩, ⟨some "o", []⟩)
  else
    (some ⟨"gA", [⟨"vA", [], 10, some ⟨some 10, some "L"⟩⟩]⟩, ⟨some "o", []⟩)

/-! ## Helper lemmas -/

/-- Rounding to 2 decimals fixes every value that already has at most 2
decimal places. -/
theorem round2_intCast_div_hundred (k : ℤ) : round2 ((k : ℚ) / 100) = (k : ℚ) / 100 := by
  unfold round2
  have h : ((k : ℚ) / 100) * 100 = (k : ℚ) := by field_simp
  rw [h]
  have h2 : ⌊(k : ℚ) + 1 / 2⌋ = k := by
    rw [Int.floor_int_add]
    norm_num
  rw [h2]

/-! ## C1 -/

/-- C1, counterexample: the product fetch inside `/create-bundles`
resolves (by JS lexical scoping) to the route-local `shopifyGraphQLCall`,
which posts through bare axios: it is not rate-limited and makes a
single attempt, so not every outbound call travels through the resilient
wrappers. -/
theorem c1_counterexample :
    transportOf OutboundCallSite.createProductFetch = Transport.rawAxios
    ∧ (policyOf (transportOf OutboundCallSite.createProductFetch)).rateLimited = false
    ∧ (policyOf (transportOf OutboundCallSite.createProductFetch)).maxAttempts = 1 := by
  decide

/-- C1, amended: every outbound call site outside the `/create-bundles`
and `/update-bundles` handlers travels through one of the two resilient
module-level wrappers and is therefore subject to the 500 ms /
max-concurrency-1 Bottleneck gate and the 3-attempt retry policy; the
two mutation handlers use route-local raw-axios helpers instead. -/
theorem c1_amended (cs : OutboundCallSite)
    (h1 : routeOf cs ≠ Route.createBundles) (h2 : routeOf cs ≠ Route.updateBundles) :
    transportOf cs ≠ Transport.rawAxios
    ∧ (policyOf (transportOf cs)).rateLimited = true
    ∧ (policyOf (transportOf cs)).minTimeMs = 500
    ∧ (policyOf (transportOf cs)).maxConcurrent = 1
    ∧ (policyOf (transportOf cs)).maxAttempts = 3 := by
  cases cs <;> simp_all [routeOf, transportOf, policyOf]

/-- C1, witness: the catalog-page fetch is outside the two mutation
handlers, and the amended theorem applies to it. -/
theorem c1_amended_witness :
    (routeOf OutboundCallSite.fetchProductsPage ≠ Route.createBundles
      ∧ routeOf OutboundCallSite.fetchProductsPage ≠ Route.updateBundles)
    ∧ (transportOf OutboundCallSite.fetchProductsPage ≠ Transport.rawAxios
      ∧ (policyOf (transportOf OutboundCallSite.fetchProductsPage)).rateLimited = true
      ∧ (policyOf (transportOf OutboundCallSite.fetchProductsPage)).minTimeMs = 500
      ∧ (policyOf (transportOf OutboundCallSite.fetchProductsPage)).maxConcurrent = 1
      ∧ (policyOf (transportOf OutboundCallSite.fetchProductsPage)).maxAttempts = 3) :=
  ⟨⟨by decide, by decide⟩,
    c1_amended OutboundCallSite.fetchProductsPage (by decide) (by decide)⟩

/-! ## C2 -/

/-- C2: a REST call whose every attempt yields 429 is attempted exactly
3 times and then fails with the distinct max-retries error naming the
url, and likewise a GraphQL call whose every attempt is retriable (429
or THROTTLED) fails with the max-retries error naming GraphQL after
exactly 3 attempts; a call whose first attempt is retriable and whose
second attempt succeeds returns the attempt-2 result after exactly 2
attempts (no third attempt is executed). -/
theorem c2_retry_bound (url body d : String)
    (e1 : ℕ → RestOutcome) (h1 : ∀ i, e1 i = RestOutcome.rateLimited)
    (e2 : ℕ → RestOutcome) (h2a : e2 0 = RestOutcome.rateLimited)
    (h2b : e2 1 = RestOutcome.ok body)
    (e3 : ℕ → GraphQLOutcome) (h3 : ∀ i, (e3 i).retriable = true)
    (e4 : ℕ → GraphQLOutcome) (h4a : (e4 0).retriable = true)
    (h4b : e4 1 = GraphQLOutcome.ok d) :
    shopifyApiCall e1 url = (.failure ("Max retries (3) exceeded for " ++ url), 3)
    ∧ shopifyApiCall e2 url = (.success body, 2)
    ∧ shopifyGraphQLCall e3 = (.failure "Max retries (3) exceeded for GraphQL", 3)
    ∧ shopifyGraphQLCall e4 = (.success d, 2) := by
  refine ⟨?_, ?_, ?_, ?_⟩
  · simp [shopifyApiCall, shopifyApiCallAux, h1 0, h1 1, h1 2]
  · simp [shopifyApiCall, shopifyApiCallAux, h2a, h2b]
  · have g0 := h3 0; have g1 := h3 1; have g2 := h3 2
    cases hg0 : e3 0 <;> rw [hg0] at g0 <;> simp [GraphQLOutcome.retriable] at g0 <;>
      cases hg1 : e3 1 <;> rw [hg1] at g1 <;> simp [GraphQLOutcome.retriable] at g1 <;>
      cases hg2 : e3 2 <;> rw [hg2] at g2 <;> simp [GraphQLOutcome.retriable] at g2 <;>
      simp [shopifyGraphQLCall, shopifyGraphQLCallAux, hg0, hg1, hg2]
  · cases hg0 : e4 0 <;> rw [hg0] at h4a <;> simp [GraphQLOutcome.retriable] at h4a <;>
      simp [shopifyGraphQLCall, shopifyGraphQLCallAux, hg0, h4b]

/-- C2, witness: concrete oracles realizing both scenarios for both
wrappers. -/
theorem c2_retry_bound_witness :
    ((∀ i, (fun _ : ℕ => RestOutcome.rateLimited) i = RestOutcome.rateLimited)
      ∧ shopifyApiCall (fun _ => RestOutcome.rateLimited) "u"
          = (.failure ("Max retries (3) exceeded for " ++ "u"), 3))
    ∧ shopifyApiCall
        (fun i => if i = 0 then RestOutcome.rateLimited else RestOutcome.ok "B") "u"
        = (.success "B", 2)
    ∧ shopifyGraphQLCall (fun _ => GraphQLOutcome.throttled)
        = (.failure "Max retries (3) exceeded for GraphQL", 3)
    ∧ shopifyGraphQLCall
        (fun i => if i = 0 then GraphQLOutcome.http429 else GraphQLOutcome.ok "D")
        = (.success "D", 2) := by
  have h := c2_retry_bound "u" "B" "D"
    (fun _ => RestOutcome.rateLimited) (fun _ => rfl)
    (fun i => if i = 0 then RestOutcome.rateLimited else RestOutcome.ok "B")
    (by decide) (by decide)
    (fun _ => GraphQLOutcome.throttled) (fun _ => rfl)
    (fun i => if i = 0 then GraphQLOutcome.http429 else GraphQLOutcome.ok "D")
    (by decide) (by decide)
  exact ⟨⟨fun _ => rfl, h.1⟩, h.2.1, h.2.2.1, h.2.2.2⟩

/-! ## C3 -/

/-- C3: for every base price, discounts in [0,100] and base inventory,
the three tier prices written by the create pipeline are exactly
`round2 (P * m * (1 - d/100))` for tiers m = 1 (d fixed to 0), 2, 3, the
update route writes the same 2x/3x prices, a zero discount reduces the
formula to `round2 (P * m)`, and whenever the base price has at most 2
decimal places (the platform's write precision) the 1x tier price equals
the base price itself. -/
theorem c3_tier_prices (pid : String) (P d2 d3 : ℚ) (Q : ℤ)
    (h2 : 0 ≤ d2 ∧ d2 ≤ 100) (h3 : 0 ≤ d3 ∧ d3 ≤ 100) :
    ((variantsToCreate pid P d2 d3 Q).map VariantInput.price)
        = [round2 (P * 1 * (1 - 0 / 100)), round2 (P * 2 * (1 - d2 / 100)),
           round2 (P * 3 * (1 - d3 / 100))]
    ∧ updatePrice2 P d2 = round2 (P * 2 * (1 - d2 / 100))
    ∧ updatePrice3 P d3 = round2 (P * 3 * (1 - d3 / 100))
    ∧ (d2 = 0 → round2 (P * 2 * (1 - d2 / 100)) = round2 (P * 2))
    ∧ (d3 = 0 → round2 (P * 3 * (1 - d3 / 100)) = round2 (P * 3))
    ∧ (∀ k : ℤ, P = (k : ℚ) / 100 →
        ((variantsToCreate pid P d2 d3 Q).map VariantInput.price).head? = some P) := by
  refine ⟨?_, rfl, rfl, ?_, ?_, ?_⟩
  · simp only [variantsToCreate, createBundleSpecs, List.map_cons, List.map_nil,
      List.cons.injEq, and_true]
    have h : P * 1 * (1 - 0 / 100) = P := by ring
    rw [h]
  · intro h; subst h; norm_num
  · intro h; subst h; norm_num
  · intro k hk
    simp only [variantsToCreate, createBundleSpecs, List.map_cons, List.head?_cons,
      Option.some.injEq]
    rw [hk, round2_intCast_div_hundred]

/-- C3, witness: the spec scenario (base price 10, discounts 10 and 20,
inventory 37) evaluated: tier prices 10.00, 18.00, 24.00. -/
theorem c3_tier_prices_witness :
    ((0:ℚ) ≤ 10 ∧ (10:ℚ) ≤ 100) ∧ ((0:ℚ) ≤ 20 ∧ (20:ℚ) ≤ 100)
    ∧ ((variantsToCreate "p" 10 10 20 37).map VariantInput.price) = [10, 18, 24] := by
  have h2 : (0:ℚ) ≤ 10 ∧ (10:ℚ) ≤ 100 := by norm_num
  have h3 : (0:ℚ) ≤ 20 ∧ (20:ℚ) ≤ 100 := by norm_num
  refine ⟨h2, h3, ?_⟩
  rw [(c3_tier_prices "p" 10 10 20 37 h2 h3).1]
  norm_num [round2]

/-! ## C4 -/

/-- C4: for every base inventory Q (of either sign) and tier
m ∈ {1,2,3}, the tier inventory computed by the create pipeline is
`⌊Q / qty⌋` for each tier, and it is nonnegative whenever the
pipeline's `baseInventory > 0` guard passed; the inventory-sync route
(which has no positivity guard and defaults a missing quantity to 0)
computes `⌊Q / m⌋` and pushes its clamp to zero, so the pushed
quantity is never negative for any Q. -/
theorem c4_tier_inventory (P d2 d3 : ℚ) (Q : ℤ) (m : ℕ)
    (_hm : m = 1 ∨ m = 2 ∨ m = 3) :
    (∀ b ∈ createBundleSpecs P d2 d3 Q,
        b.inventory = ⌊(Q : ℚ) / (b.qty : ℚ)⌋)
    ∧ (0 < Q → ∀ b ∈ createBundleSpecs P d2 d3 Q, 0 ≤ b.inventory)
    ∧ syncNewInventory Q m = ⌊(Q : ℚ) / (m : ℚ)⌋
    ∧ syncPushedQuantity Q m = max (syncNewInventory Q m) 0
    ∧ 0 ≤ syncPushedQuantity Q m := by
  refine ⟨?_, ?_, rfl, ?_, ?_⟩
  · intro b hb
    simp only [createBundleSpecs, List.mem_cons, List.not_mem_nil, or_false] at hb
    rcases hb with hb | hb | hb <;> subst hb <;> norm_num
  · intro hQ b hb
    have hQq : (0:ℚ) ≤ (Q : ℚ) := by exact_mod_cast hQ.le
    have hfloor : ∀ c : ℚ, 0 < c → 0 ≤ ⌊(Q : ℚ) / c⌋ := by
      intro c hc
      apply Int.le_floor.mpr
      simpa using div_nonneg hQq hc.le
    simp only [createBundleSpecs, List.mem_cons, List.not_mem_nil, or_false] at hb
    rcases hb with hb | hb | hb <;> subst hb <;> exact hfloor _ (by norm_num)
  · unfold syncPushedQuantity
    split <;> omega
  · unfold syncPushedQuantity
    split <;> omega

/-- C4, witness: a negative base inventory −5 with tier 2 exercises the
clamp (floor is −3, pushed quantity 0), and the spec scenario Q = 37
gives create inventories [37, 18, 12], all nonnegative under the create
guard. -/
theorem c4_tier_inventory_witness :
    ((2:ℕ) = 1 ∨ (2:ℕ) = 2 ∨ (2:ℕ) = 3)
    ∧ (∀ b ∈ createBundleSpecs 10 10 20 (-5),
        b.inventory = ⌊(-5 : ℚ) / (b.qty : ℚ)⌋)
    ∧ syncNewInventory (-5) 2 = -3
    ∧ syncPushedQuantity (-5) 2 = max (syncNewInventory (-5) 2) 0
    ∧ syncPushedQuantity (-5) 2 = 0
    ∧ 0 ≤ syncPushedQuantity (-5) 2
    ∧ (0 < (37:ℤ) → ∀ b ∈ createBundleSpecs 10 10 20 37, 0 ≤ b.inventory)
    ∧ (createBundleSpecs 10 10 20 37).map BundleSpec.inventory = [37, 18, 12] := by
  have h5 := c4_tier_inventory 10 10 20 (-5) 2 (by norm_num)
  have h37 := c4_tier_inventory 10 10 20 37 2 (by norm_num)
  have hfl : syncNewInventory (-5) 2 = -3 := by
    rw [h5.2.2.1]
    norm_num
  refine ⟨by norm_num, h5.1, hfl, h5.2.2.2.1, ?_, h5.2.2.2.2, h37.2.1, ?_⟩
  · rw [h5.2.2.2.1, hfl]
    rfl
  · simp only [createBundleSpecs, List.map_cons, List.map_nil]
    norm_num

/-! ## Sales-aggregation lemmas -/

/-- Folding gid updates over entries none of which writes key `g` leaves
position `g` untouched. -/
theorem foldUpdate_skip (f : String → ℕ) (g : String) :
    ∀ (l : List (String × String)) (init : String → ℕ),
      (∀ e ∈ l, e.2 ≠ g) →
      (l.foldl (fun acc e => Function.update acc e.2 (f e.1)) init) g = init g := by
  intro l
  induction l with
  | nil => intro init _; rfl
  | cons e t ih =>
    intro init h
    simp only [List.foldl_cons]
    rw [ih _ (fun x hx => h x (List.mem_cons_of_mem e hx))]
    exact Function.update_noteq (Ne.symm (h e (List.mem_cons_self e t))) _ _

/-- Folding gid updates over an entry list in which key `g` is written,
and only ever with the value of sku `s`, ends with `f s` at `g`. -/
theorem foldUpdate_lookup (f : String → ℕ) (s g : String) :
    ∀ (l : List (String × String)) (init : String → ℕ),
      (s, g) ∈ l → (∀ e ∈ l, e.2 = g → e.1 = s) →
      (l.foldl (fun acc e => Function.update acc e.2 (f e.1)) init) g = f s := by
  intro l
  induction l with
  | nil => intro _ h _; exact absurd h (List.not_mem_nil _)
  | cons e t ih =>
    intro init hmem huniq
    simp only [List.foldl_cons]
    by_cases ht : ∃ e2 ∈ t, e2.2 = g
    · obtain ⟨e2, he2t, he2g⟩ := ht
      have h1 : e2.1 = s := huniq e2 (List.mem_cons_of_mem e he2t) he2g
      have hsg : (s, g) ∈ t := by
        have : e2 = (s, g) := Prod.ext h1 he2g
        exact this ▸ he2t
      exact ih _ hsg (fun x hx => huniq x (List.mem_cons_of_mem e hx))
    · push_neg at ht
      rw [foldUpdate_skip f g t _ ht]
      have heg : e = (s, g) := by
        rcases List.mem_cons.mp hmem with h | h
        · exact h.symm
        · exact absurd rfl (ht _ h ∘ fun hq => hq)
      subst heg
      simp [Function.update_same]

/-- Accumulating line items into the sku map adds, at a nonempty bundle
sku `s`, exactly the quantities of the line items carrying sku `s`. -/
theorem accum_fold (bundleSkus : List String) (s : String)
    (hs : s ≠ "") (hmem : s ∈ bundleSkus) :
    ∀ (items : List LineItem) (m : String → ℕ),
      (items.foldl (accumSkuSales bundleSkus) m) s
        = m s + ((items.filter (fun li => li.sku = some s)).map LineItem.quantity).sum := by
  intro items
  induction items with
  | nil => intro m; simp
  | cons li t ih =>
    intro m
    simp only [List.foldl_cons]
    cases hsku : li.sku with
    | none =>
      have hacc : accumSkuSales bundleSkus m li = m := by
        simp [accumSkuSales, hsku]
      rw [hacc, ih]
      simp [List.filter_cons, hsku]
    | some x =>
      by_cases hx : x = s
      · subst hx
        have hacc : accumSkuSales bundleSkus m li
            = Function.update m x (m x + li.quantity) := by
          simp [accumSkuSales, hsku, hs, hmem]
        rw [hacc, ih]
        simp [List.filter_cons, hsku, Function.update_same, Nat.add_assoc]
      · have hfilter : (List.filter (fun li => decide (li.sku = some s)) (li :: t))
            = List.filter (fun li => decide (li.sku = some s)) t := by
          simp [List.filter_cons, hsku, hx]
        by_cases hcond : x ≠ "" ∧ x ∈ bundleSkus
        · have hacc : accumSkuSales bundleSkus m li
              = Function.update m x (m x + li.quantity) := by
            simp [accumSkuSales, hsku, hcond.1, hcond.2]
          rw [hacc, ih, hfilter, Function.update_noteq (Ne.symm hx)]
        · have hacc : accumSkuSales bundleSkus m li = m := by
            simp only [accumSkuSales, hsku]
            rw [if_neg hcond]
          rw [hacc, ih, hfilter]

/-! ## C6 -/

/-- C6: sales aggregation is keyed by the stable sku.  If sku `s` is a
(nonempty) bundle sku mapped to current gid `g`, and `g` is only ever
the current gid of `s`, then the aggregated total folded back onto `g`
is the sum of the quantities of all scanned line items whose sku is `s`,
regardless of the variant ids those line items carry. -/
theorem c6_sales_keyed_by_sku (variantGids : List String)
    (skuToGid : List (String × String)) (pages : List OrdersPage) (s g : String)
    (hne : variantGids ≠ []) (hs : s ≠ "") (hmem : (s, g) ∈ skuToGid)
    (huniq : ∀ e ∈ skuToGid, e.2 = g → e.1 = s) :
    fetchAndAggregateSales variantGids skuToGid pages g
      = (((scannedLineItems pages).filter (fun li => li.sku = some s)).map
          LineItem.quantity).sum := by
  have hbe : variantGids.isEmpty = false := by
    simpa [List.isEmpty_iff] using hne
  rw [fetchAndAggregateSales, hbe]
  simp only [Bool.false_eq_true, if_false]
  rw [foldUpdate_lookup _ s g skuToGid _ hmem huniq]
  rw [skuSalesOf, accum_fold _ s hs (List.mem_map_of_mem Prod.fst hmem)]
  simp

/-- C6, witness: two scanned line items carry the same sku `SKU1` under
different variant ids across two pages; their quantities 2 and 3 are
summed and folded back to the current gid. -/
theorem c6_sales_keyed_by_sku_witness :
    (["gA"] ≠ ([] : List String)) ∧ ("SKU1" ≠ "")
    ∧ (("SKU1", "gNew") ∈ [("SKU1", "gNew")])
    ∧ (∀ e ∈ [("SKU1", "gNew")], e.2 = "gNew" → e.1 = "SKU1")
    ∧ fetchAndAggregateSales ["gA"] [("SKU1", "gNew")]
        [⟨[⟨[⟨some "v1", some "SKU1", 2⟩]⟩], true⟩,
         ⟨[⟨[⟨some "v2", some "SKU1", 3⟩]⟩], false⟩] "gNew"
      = 5 := by
  refine ⟨by decide, by decide, by decide, by decide, ?_⟩
  rw [c6_sales_keyed_by_sku ["gA"] [("SKU1", "gNew")]
    [⟨[⟨[⟨some "v1", some "SKU1", 2⟩]⟩], true⟩,
     ⟨[⟨[⟨some "v2", some "SKU1", 3⟩]⟩], false⟩] "SKU1" "gNew"
    (by decide) (by decide) (by decide) (by decide)]
  decide

/-! ## C7 -/

/-- C7, counterexample: with one collected bundle-variant key and a
one-page order history, the sales pass issues exactly one query whose
variant-key list is empty — the collected key is carried by no query, so
the pass does not partition the keys into groups of at most 50 per
query.  (The 50-key chunking exists only in the prior revision
`src/unnamed/part_000`, lines 423-455.) -/
theorem c7_counterexample :
    salesQueryKeyLists ["g1"] [OrdersPage.mk [] false] = [[]]
    ∧ "g1" ∉ ([] : List String) := by
  constructor
  · rfl
  · decide

/-- C7, amended: the sales-aggregation pass is a single paginated scan —
one query per scanned order page, each query carrying no variant keys at
all (no chunking) — and the internal-only `variantGid` and `sku` fields
are removed from every bundle record before the report is returned. -/
theorem c7_amended (variantGids : List String) (pages : List OrdersPage)
    (salesMap : String → ℕ) (p : BundleProduct) (hne : variantGids ≠ []) :
    (∀ grp ∈ salesQueryKeyLists variantGids pages, grp = [])
    ∧ (salesQueryKeyLists variantGids pages).length
        = (takeScanned MAX_PAGES pages).length
    ∧ (∀ b ∈ (finalizeProduct salesMap p).bundles,
        b.variantGid = none ∧ b.sku = none) := by
  have hbe : variantGids.isEmpty = false := by
    simpa [List.isEmpty_iff] using hne
  refine ⟨?_, ?_, ?_⟩
  · intro grp hgrp
    have hmm : grp ∈ (takeScanned MAX_PAGES pages).map (fun _ => ([] : List String)) := by
      simpa [salesQueryKeyLists, hbe] using hgrp
    rcases List.mem_map.mp hmm with ⟨a, -, hgrp2⟩
    exact hgrp2.symm
  · simp [salesQueryKeyLists, hbe]
  · intro b hb
    simp only [finalizeProduct, List.mem_map] at hb
    obtain ⟨a, -, hab⟩ := hb
    subst hab
    exact ⟨rfl, rfl⟩

/-- C7, witness: the amended theorem applied to a concrete one-key,
one-page input and a concrete product whose bundle carries internal
fields before finalization. -/
theorem c7_amended_witness :
    (["g"] ≠ ([] : List String))
    ∧ ((∀ grp ∈ salesQueryKeyLists ["g"] [OrdersPage.mk [] false], grp = [])
      ∧ (salesQueryKeyLists ["g"] [OrdersPage.mk [] false]).length
          = (takeScanned MAX_PAGES [OrdersPage.mk [] false]).length
      ∧ (∀ b ∈ (finalizeProduct (fun _ => 0)
            ⟨"1", "T", [⟨"1x", "1", some "g", some "S", 10, 5, 0⟩], 0, 0, 0⟩).bundles,
          b.variantGid = none ∧ b.sku = none)) :=
  ⟨by decide,
    c7_amended ["g"] [OrdersPage.mk [] false] (fun _ => 0)
      ⟨"1", "T", [⟨"1x", "1", some "g", some "S", 10, 5, 0⟩], 0, 0, 0⟩ (by decide)⟩

/-! ## C8 -/

/-- A well-formed page sequence is scanned exactly as its n-prefix. -/
theorem takeScanned_wf (n : ℕ) :
    ∀ pages, wellFormedPages pages = true → takeScanned n pages = pages.take n := by
  intro pages
  induction pages generalizing n with
  | nil => intro _; cases n <;> rfl
  | cons p rest ih =>
    intro h
    cases n with
    | zero => rfl
    | succ m =>
      cases rest with
      | nil =>
        simp only [wellFormedPages, Bool.not_eq_true'] at h
        simp [takeScanned, h]
      | cons q t =>
        simp only [wellFormedPages, Bool.and_eq_true] at h
        simp [takeScanned, h.1, ih m h.2]

/-- Scanning the n-prefix of a page sequence scans the same pages. -/
theorem takeScanned_take (n : ℕ) :
    ∀ pages : List OrdersPage, takeScanned n (pages.take n) = takeScanned n pages := by
  induction n with
  | zero => intro pages; rfl
  | succ m ih =>
    intro pages
    cases pages with
    | nil => rfl
    | cons p rest =>
      simp only [List.take_succ_cons, takeScanned, ih rest]

/-- The line items the crawl sees only depend on the first `MAX_PAGES`
pages. -/
theorem scannedLineItems_take (pages : List OrdersPage) :
    scannedLineItems (pages.take MAX_PAGES) = scannedLineItems pages := by
  unfold scannedLineItems
  rw [takeScanned_take]

/-- C8: on a well-formed page sequence the order-history crawl fetches
exactly `min (number of pages) 10` pages, and the aggregation result is
exactly what aggregating only the first 10 pages yields — partial totals
are returned, no error is raised, when the bound cuts the history
short. -/
theorem c8_page_bound (pages : List OrdersPage)
    (h : wellFormedPages pages = true) :
    (takeScanned MAX_PAGES pages).length = min pages.length MAX_PAGES
    ∧ ∀ (variantGids : List String) (skuToGid : List (String × String)) (g : String),
        fetchAndAggregateSales variantGids skuToGid pages g
          = fetchAndAggregateSales variantGids skuToGid (pages.take MAX_PAGES) g := by
  constructor
  · rw [takeScanned_wf MAX_PAGES pages h, List.length_take, Nat.min_comm]
  · intro variantGids skuToGid g
    unfold fetchAndAggregateSales skuSalesOf
    rw [scannedLineItems_take]

/-- C8, witness: a well-formed 12-page history is scanned for exactly 10
pages, and aggregation equals aggregation over the first 10 pages. -/
theorem c8_page_bound_witness :
    wellFormedPages (List.replicate 11 (OrdersPage.mk [] true) ++ [OrdersPage.mk [] false]) = true
    ∧ (takeScanned MAX_PAGES
        (List.replicate 11 (OrdersPage.mk [] true) ++ [OrdersPage.mk [] false])).length
      = min (List.replicate 11 (OrdersPage.mk [] true) ++ [OrdersPage.mk [] false]).length MAX_PAGES
    ∧ fetchAndAggregateSales ["g"] [("S", "g")]
        (List.replicate 11 (OrdersPage.mk [] true) ++ [OrdersPage.mk [] false]) "g"
      = fetchAndAggregateSales ["g"] [("S", "g")]
        ((List.replicate 11 (OrdersPage.mk [] true) ++ [OrdersPage.mk [] false]).take MAX_PAGES)
        "g" := by
  have h := c8_page_bound (List.replicate 11 (OrdersPage.mk [] true) ++ [OrdersPage.mk [] false])
    (by decide)
  exact ⟨by decide, h.1, h.2 ["g"] [("S", "g")] "g"⟩

/-! ## String lemmas for the result-aggregation regexes -/

/-- Stripping a pattern from a list that starts with it yields the
remainder. -/
theorem stripPrefixChars_append (p : List Char) :
    ∀ r, stripPrefixChars p (p ++ r) = some r := by
  induction p with
  | nil => intro r; rfl
  | cons c cs ih => intro r; simp [stripPrefixChars, ih r]

/-- Taking digits from an all-digit run followed by a colon stops at the
colon. -/
theorem takeDigits_digits_colon (r : List Char) :
    ∀ ds : List Char, (∀ ch ∈ ds, ch.isDigit = true) →
      takeDigits (ds ++ ':' :: r) = (ds, ':' :: r) := by
  intro ds
  induction ds with
  | nil => intro _; simp [takeDigits]
  | cons d t ih =>
    intro h
    have hd : d.isDigit = true := h d (List.mem_cons_self d t)
    have ih2 := ih (fun ch hch => h ch (List.mem_cons_of_mem d hch))
    simp only [List.cons_append, takeDigits, hd, if_true, List.append_eq]
    rw [ih2]

/-- The data of a concatenation of strings. -/
theorem string_data_append (s t : String) : (s ++ t).data = s.data ++ t.data := by
  cases s; cases t; rfl

/-- The character content of a wrapped per-product error message. -/
theorem wrapErr_data (pid msg : String) :
    (wrapErr pid msg).data = literalPid ++ pid.data ++ ':' :: ' ' :: msg.data := by
  unfold wrapErr
  rw [string_data_append, string_data_append, string_data_append]
  have h2 : (": " : String).data = [':', ' '] := rfl
  have h1 : ("Error processing product " : String).data = literalPid := rfl
  rw [h1, h2]
  simp

/-- A wrapped error message is never the empty string. -/
theorem wrapErr_ne_empty (pid msg : String) : wrapErr pid msg ≠ "" := by
  intro h
  have hd := congrArg String.data h
  rw [wrapErr_data] at hd
  simp [literalPid] at hd

/-- The pid-capturing regex matches at the start of a wrapped message
when the pid is a nonempty digit string. -/
theorem matchPidAt_wrap (pid msg : String) (hne : pid.data ≠ [])
    (hdig : ∀ ch ∈ pid.data, ch.isDigit = true) :
    matchPidAt (wrapErr pid msg).data = some pid.data := by
  rw [wrapErr_data]
  unfold matchPidAt
  rw [List.append_assoc, stripPrefixChars_append]
  simp only
  rw [takeDigits_digits_colon (' ' :: msg.data) pid.data hdig]
  simp [hne]

/-- Leftmost search returns the anchored match when there is one. -/
theorem findPid_of_matchPidAt (s : List Char) (d : List Char)
    (h : matchPidAt s = some d) : findPid s = some d := by
  cases s with
  | nil => exact absurd h (by rw [show matchPidAt [] = none from rfl]; simp)
  | cons c cs => simp [findPid, h, Option.orElse]

/-- The wrapper-removal regex matches at the start of a wrapped message
when the pid is a nonempty digit string, leaving exactly the detail. -/
theorem matchWrapAt_wrap (pid msg : String) (hne : pid.data ≠ [])
    (hdig : ∀ ch ∈ pid.data, ch.isDigit = true) :
    matchWrapAt (wrapErr pid msg).data = some msg.data := by
  rw [wrapErr_data]
  unfold matchWrapAt
  rw [List.append_assoc, stripPrefixChars_append]
  simp only
  rw [takeDigits_digits_colon (' ' :: msg.data) pid.data hdig]
  simp [hne]

/-- Replacing the leftmost wrapper occurrence removes it when the list
starts with one. -/
theorem removeWrapAux_of_matchWrapAt (s t : List Char)
    (hs : s ≠ []) (h : matchWrapAt s = some t) : removeWrapAux s = t := by
  cases s with
  | nil => exact absurd rfl hs
  | cons c cs => simp [removeWrapAux, h]

/-- `String.mk` undoes `String.data`. -/
theorem string_mk_data (s : String) : String.mk s.data = s := rfl

/-- Settling a rejection whose message is a wrapped per-product error
with a digit pid recovers the pid and the error detail. -/
theorem settleOne_wrapped (pid msg : String) (hne : pid.data ≠ [])
    (hdig : ∀ ch ∈ pid.data, ch.isDigit = true) :
    settleOne (.error (wrapErr pid msg)) = .failure pid msg := by
  have h1 : findPid (wrapErr pid msg).data = some pid.data :=
    findPid_of_matchPidAt _ _ (matchPidAt_wrap pid msg hne hdig)
  have h2 : removeWrapAux (wrapErr pid msg).data = msg.data :=
    removeWrapAux_of_matchWrapAt _ _
      (by rw [wrapErr_data]; simp [literalPid])
      (matchWrapAt_wrap pid msg hne hdig)
  simp only [settleOne, wrapErr_ne_empty pid msg, if_false, h1, h2]

/-- A nonempty list no longer than the chunk size is a single chunk. -/
theorem chunkArrayPos_short (x : α) (xs : List α) (n : ℕ) (h : xs.length ≤ n) :
    chunkArray (x :: xs) (n + 1) = [x :: xs] := by
  have h0 : chunkArrayPos ([] : List α) n = [] := by
    rw [chunkArrayPos.eq_def]
  rw [chunkArray, chunkArrayPos.eq_def]
  simp [List.take_of_length_le h, List.drop_eq_nil_of_le h, h0]

/-! ## C5 -/

/-- C5: per-product failures in a create-bundles batch are isolated.
For a batch of three products where the middle product's pipeline
rejects (with the wrapped error the pipeline throws) while the other
two fulfil, the aggregated report is exactly one success entry for the
first, one failure entry carrying the middle product's id and error
detail, and one success entry for the third. -/
theorem c5_partial_failure_isolation (text : String) (d2 d3 : ℚ)
    (env : String → Option CProduct × CreateOrch) (a b c sA sC eB : String)
    (hA : (processProduct a text d2 d3 (env a).1 (env a).2).1 = .ok (a, sA))
    (hB : (processProduct b text d2 d3 (env b).1 (env b).2).1 = .error (wrapErr b eB))
    (hC : (processProduct c text d2 d3 (env c).1 (env c).2).1 = .ok (c, sC))
    (hbne : b.data ≠ []) (hbdig : ∀ ch ∈ b.data, ch.isDigit = true) :
    runBatch [a, b, c]
        (fun pid => (processProduct pid text d2 d3 (env pid).1 (env pid).2).1)
      = [.success a sA, .failure b eB, .success c sC] := by
  have hchunk : chunkArray [a, b, c] 15 = [[a, b, c]] :=
    chunkArrayPos_short a [b, c] 14 (by simp)
  simp only [runBatch, CONCURRENCY_CHUNK_SIZE]
  rw [hchunk]
  simp only [List.map_cons, List.map_nil, List.flatten_cons, List.flatten_nil,
    List.append_nil]
  rw [hA, hB, hC]
  rw [settleOne_wrapped b eB hbne hbdig]
  rfl

/-- C5, witness: a concrete batch of products 1, 2, 3 in which product
2's fetched snapshot has no inventory location (so its pipeline rejects)
while 1 and 3 run to completion. -/
theorem c5_partial_failure_isolation_witness :
    ((processProduct "1" "" 0 0 (c5env "1").1 (c5env "1").2).1
      = .ok ("1", "✅ Bundles created successfully for product 1"))
    ∧ ((processProduct "2" "" 0 0 (c5env "2").1 (c5env "2").2).1
      = .error (wrapErr "2" "No inventory location found."))
    ∧ ((processProduct "3" "" 0 0 (c5env "3").1 (c5env "3").2).1
      = .ok ("3", "✅ Bundles created successfully for product 3"))
    ∧ runBatch ["1", "2", "3"]
        (fun pid => (processProduct pid "" 0 0 (c5env pid).1 (c5env pid).2).1)
      = [.success "1" "✅ Bundles created successfully for product 1",
         .failure "2" "No inventory location found.",
         .success "3" "✅ Bundles created successfully for product 3"] := by
  refine ⟨by rfl, by rfl, by rfl, ?_⟩
  exact c5_partial_failure_isolation "" 0 0 c5env "1" "2" "3"
    "✅ Bundles created successfully for product 1"
    "✅ Bundles created successfully for product 3"
    "No inventory location found."
    (by rfl) (by rfl) (by rfl) (by decide) (by decide)

/-! ## C9 -/

/-- C9, counterexample: a product carrying a `bundle`-namespace
metafield still carries it after `/delete-bundles` succeeds — the route
deletes tier variants and resets the option axis but performs no
metafield cleanup at all. -/
theorem c9_counterexample :
    deleteBundlesRoute
        ⟨[⟨"v0", []⟩, ⟨"v1", [("Bundle", "1x")]⟩],
         [⟨"Bundle", ["1x", "2x", "3x"]⟩],
         [⟨"bundle", "visitors", "5"⟩]⟩
      = .ok ⟨[⟨"v0", []⟩], [⟨"Title", []⟩], [⟨"bundle", "visitors", "5"⟩]⟩
    ∧ Metafield.mk "bundle" "visitors" "5"
        ∈ (DeleteProductState.mk [⟨"v0", []⟩] [⟨"Title", []⟩]
            [⟨"bundle", "visitors", "5"⟩]).metafields := by
  refine ⟨by rfl, by decide⟩

/-- C9, amended: on the success path the delete route removes exactly
the variants whose Bundle option value is 1x/2x/3x (keeping all
others), resets the product's option axis to a single `Title` option,
and leaves the product's metafields untouched (no metafield cleanup is
performed). -/
theorem c9_amended (p : DeleteProductState) (q : DeleteProductState)
    (h : p.variants ≠ []) (hq : deleteBundlesRoute p = .ok q) :
    (∀ v ∈ q.variants, dIsBundleTier v = false)
    ∧ (∀ v ∈ p.variants, dIsBundleTier v = false → v ∈ q.variants)
    ∧ q.options.map DOptionAxis.name = ["Title"]
    ∧ q.metafields = p.metafields := by
  have hbe : p.variants.isEmpty = false := by
    simpa [List.isEmpty_iff] using h
  rw [deleteBundlesRoute, hbe] at hq
  simp only [Bool.false_eq_true, if_false, Except.ok.injEq] at hq
  subst hq
  refine ⟨?_, ?_, rfl, rfl⟩
  · intro v hv
    have := List.of_mem_filter hv
    simpa using this
  · intro v hv hfalse
    exact List.mem_filter.mpr ⟨hv, by simp [hfalse]⟩

/-- C9, witness: the amended theorem applied to a concrete product with
one base variant, one 2x tier variant, and one metafield. -/
theorem c9_amended_witness :
    (([⟨"v0", [("Color", "Red")]⟩, ⟨"v2", [("Bundle", "2x")]⟩] : List DVariant) ≠ [])
    ∧ deleteBundlesRoute
        ⟨[⟨"v0", [("Color", "Red")]⟩, ⟨"v2", [("Bundle", "2x")]⟩],
         [⟨"Bundle", ["1x", "2x", "3x"]⟩], [⟨"bundle", "extra_text", "t"⟩]⟩
      = .ok ⟨[⟨"v0", [("Color", "Red")]⟩], [⟨"Title", []⟩],
             [⟨"bundle", "extra_text", "t"⟩]⟩
    ∧ ((∀ v ∈ (DeleteProductState.mk [⟨"v0", [("Color", "Red")]⟩] [⟨"Title", []⟩]
            [⟨"bundle", "extra_text", "t"⟩]).variants, dIsBundleTier v = false)
      ∧ (∀ v ∈ [DVariant.mk "v0" [("Color", "Red")], DVariant.mk "v2" [("Bundle", "2x")]],
          dIsBundleTier v = false →
            v ∈ (DeleteProductState.mk [⟨"v0", [("Color", "Red")]⟩] [⟨"Title", []⟩]
              [⟨"bundle", "extra_text", "t"⟩]).variants)
      ∧ (DeleteProductState.mk [⟨"v0", [("Color", "Red")]⟩] [⟨"Title", []⟩]
          [⟨"bundle", "extra_text", "t"⟩]).options.map DOptionAxis.name = ["Title"]
      ∧ (DeleteProductState.mk [⟨"v0", [("Color", "Red")]⟩] [⟨"Title", []⟩]
          [⟨"bundle", "extra_text", "t"⟩]).metafields
        = [Metafield.mk "bundle" "extra_text" "t"]) := by
  refine ⟨by decide, by rfl, ?_⟩
  exact c9_amended
    ⟨[⟨"v0", [("Color", "Red")]⟩, ⟨"v2", [("Bundle", "2x")]⟩],
     [⟨"Bundle", ["1x", "2x", "3x"]⟩], [⟨"bundle", "extra_text", "t"⟩]⟩
    ⟨[⟨"v0", [("Color", "Red")]⟩], [⟨"Title", []⟩], [⟨"bundle", "extra_text", "t"⟩]⟩
    (by decide) (by rfl)

/-! ## C10 -/

/-- A list with a selected base variant is nonempty. -/
theorem baseVariantOf_ne_nil (l : List CVariant) (b : CVariant)
    (h : baseVariantOf l = some b) : l ≠ [] := by
  intro hl
  subst hl
  simp [baseVariantOf] at h

/-- C10: a product whose base variant has no inventory location fails
with `No inventory location found.`, one whose location exists but whose
base available quantity is absent-or-nonpositive (absent read as 0)
fails with `No inventory available.`, and in either case the pipeline
performs no platform write beyond the optional metafield set — in
particular no variant is deleted and no option is changed. -/
theorem c10_guard_isolation (pid text : String) (d2 d3 : ℚ) (product : CProduct)
    (orch : CreateOrch) (base : CVariant)
    (hbase : baseVariantOf product.variants = some base) :
    (baseLocationOf base = none →
        (processProduct pid text d2 d3 (some product) orch).1
          = .error (wrapErr pid "No inventory location found."))
    ∧ (baseLocationOf base ≠ none → baseAvailableOf base ≤ 0 →
        (processProduct pid text d2 d3 (some product) orch).1
          = .error (wrapErr pid "No inventory available."))
    ∧ ((baseLocationOf base = none ∨ baseAvailableOf base ≤ 0) →
        ∀ a ∈ (processProduct pid text d2 d3 (some product) orch).2,
          a = PlatformAction.setMetafield pid) := by
  have hne : product.variants ≠ [] := baseVariantOf_ne_nil _ _ hbase
  have hbe : product.variants.isEmpty = false := by
    simpa [List.isEmpty_iff] using hne
  refine ⟨?_, ?_, ?_⟩
  · intro hloc
    simp [processProduct, processProductBody, hbe, hbase, hloc]
  · intro hloc hav
    cases hopt : baseLocationOf base with
    | none => exact absurd hopt hloc
    | some l =>
      simp [processProduct, processProductBody, hbe, hbase, hopt, hav]
  · intro hfail a ha
    have htrace : ∀ hcond : (processProduct pid text d2 d3 (some product) orch).2
        = (if text ≠ "" then [PlatformAction.setMetafield pid] else []),
        a = PlatformAction.setMetafield pid := by
      intro hcond
      rw [hcond] at ha
      by_cases htext : text = ""
      · simp [htext] at ha
      · simpa [htext] using ha
    rcases hfail with hloc | hav
    · refine htrace ?_
      simp [processProduct, processProductBody, hbe, hbase, hloc]
    · cases hopt : baseLocationOf base with
      | none =>
        refine htrace ?_
        simp [processProduct, processProductBody, hbe, hbase, hopt]
      | some l =>
        refine htrace ?_
        simp [processProduct, processProductBody, hbe, hbase, hopt, hav]

/-- C10, witness: a concrete product whose only variant carries no
inventory level at all — the pipeline fails with the location error and
its write trace is exactly the optional metafield set. -/
theorem c10_guard_isolation_witness :
    (baseVariantOf [CVariant.mk "v" [] 10 none] = some (CVariant.mk "v" [] 10 none))
    ∧ ((baseLocationOf (CVariant.mk "v" [] 10 none) = none →
        (processProduct "7" "T" 0 0
          (some (CProduct.mk "g7" [CVariant.mk "v" [] 10 none]))
          (CreateOrch.mk (some "o") [])).1
          = .error (wrapErr "7" "No inventory location found."))
      ∧ (baseLocationOf (CVariant.mk "v" [] 10 none) ≠ none →
          baseAvailableOf (CVariant.mk "v" [] 10 none) ≤ 0 →
          (processProduct "7" "T" 0 0
            (some (CProduct.mk "g7" [CVariant.mk "v" [] 10 none]))
            (CreateOrch.mk (some "o") [])).1
            = .error (wrapErr "7" "No inventory available."))
      ∧ ((baseLocationOf (CVariant.mk "v" [] 10 none) = none
          ∨ baseAvailableOf (CVariant.mk "v" [] 10 none) ≤ 0) →
          ∀ a ∈ (processProduct "7" "T" 0 0
            (some (CProduct.mk "g7" [CVariant.mk "v" [] 10 none]))
            (CreateOrch.mk (some "o") [])).2,
            a = PlatformAction.setMetafield "7")) :=
  ⟨by rfl,
    c10_guard_isolation "7" "T" 0 0
      (CProduct.mk "g7" [CVariant.mk "v" [] 10 none])
      (CreateOrch.mk (some "o") [])
      (CVariant.mk "v" [] 10 none) (by rfl)⟩
